/-
Verification of the operation progress-tracking and lifecycle subsystem of
the Archon repository, against its natural-language specification.

The development shallowly embeds the TypeScript sources:
  * `progressService` (src/unnamed/part_000) — the polling client,
  * `useRetryKnowledgeSource` (features/knowledge/hooks/useRetryKnowledgeSource.ts)
    — the retry mutation,
  * `FailedOperationsSection` (features/progress/components/FailedOperationsSection.tsx)
    — the failed-operations view,
and, where the backend Registry / Cleanup Scheduler code is not part of the
sources, models those components from the specification text (such
definitions carry a doc comment starting `Modelled from the spec:`).
-/
import Mathlib

namespace Archon

/-! ## Data model shared by the polling client

`Operation` carries the fields the embedded code inspects.  Statuses are the
string literals the TypeScript code compares against. -/

structure Operation where
  progressId : String
  status : String
  deriving DecidableEq, Repr

/-- Response of `GET /api/progress/?include_failed=true` as consumed by the
client: a list of operations plus a timestamp. -/
structure OperationsResponse where
  operations : List Operation
  timestamp : String
  deriving DecidableEq, Repr

/-- Shape of the value `listFailedOperations` returns. -/
structure FailedOperationsResponse where
  operations : List Operation
  count : Nat
  timestamp : String
  deriving DecidableEq, Repr

/-- The status test used by `listFailedOperations`:
`op.status === "error" || op.status === "failed"`. -/
def isFailureStatus (s : String) : Bool :=
  s = "error" || s = "failed"

/-- Embedding of `progressService.listFailedOperations` (src/unnamed/part_000,
lines 29–45).  The network call is abstracted into the `response` argument;
the function filters the response's operations to error/failed status and
rebuilds the envelope with the filtered list, its length as `count`, and the
raw response's `timestamp`. -/
def listFailedOperations (response : OperationsResponse) : FailedOperationsResponse :=
  let failedOperations := response.operations.filter (fun op => isFailureStatus op.status)
  { operations := failedOperations
    count := failedOperations.length
    timestamp := response.timestamp }

/-! ## Retry hook (`useRetryKnowledgeSource`) -/

/-- The `original_request` payload as read by the hook: it accesses `.url`,
`.max_depth` and `.tags`.  All fields are optional on the wire. -/
structure OriginalRequest where
  url : Option String
  max_depth : Option Nat
  tags : Option (List String)
  deriving DecidableEq, Repr

/-- The failed-operation record the mutation receives. -/
structure FailedOperation where
  progressId : String
  status : String
  original_request : Option OriginalRequest
  deriving DecidableEq, Repr

/-- Argument object passed to `knowledgeService.crawlUrl`. -/
structure CrawlRequest where
  url : String
  max_depth : Option Nat
  tags : Option (List String)
  deriving DecidableEq, Repr

/-- Result of running the mutation function: either it throws, or it calls
the job-submission collaborator `knowledgeService.crawlUrl` with a request. -/
inductive MutationOutcome where
  | thrown (message : String)
  | calledCrawlUrl (req : CrawlRequest)
  deriving DecidableEq, Repr

/-- Embedding of `useRetryKnowledgeSource`'s `mutationFn`
(useRetryKnowledgeSource.ts, lines 17–28).  The guard is JavaScript
truthiness of `failedOp.original_request?.url`: it throws when
`original_request` is absent, when `url` is absent, or when `url` is the
empty string; otherwise it calls `knowledgeService.crawlUrl` with the
stored url, max_depth and tags.  No other field of the record — in
particular not `status` — is examined. -/
def mutationFn (failedOp : FailedOperation) : MutationOutcome :=
  match failedOp.original_request with
  | none => .thrown "Cannot retry: Original request data missing"
  | some req =>
    match req.url with
    | none => .thrown "Cannot retry: Original request data missing"
    | some u =>
      if u = "" then .thrown "Cannot retry: Original request data missing"
      else .calledCrawlUrl { url := u, max_depth := req.max_depth, tags := req.tags }

/-- The calls the mutation function issues to the job-submission
collaborator (`knowledgeService.crawlUrl`): one on the success path, none
when it throws. -/
def crawlCalls (failedOp : FailedOperation) : List CrawlRequest :=
  match mutationFn failedOp with
  | .thrown _ => []
  | .calledCrawlUrl req => [req]

/-- Whether the mutation ended in a thrown error. -/
def MutationOutcome.isThrown : MutationOutcome → Bool
  | .thrown _ => true
  | .calledCrawlUrl _ => false

/-! ## Expanded-state toggle of `FailedOperationsSection` -/

/-- Embedding of `toggleExpanded` (FailedOperationsSection.tsx, lines
24–34): copy the previous set, delete the id if present, insert it
otherwise. -/
def toggleExpanded (progressId : String) (prev : Finset String) : Finset String :=
  if progressId ∈ prev then prev.erase progressId else insert progressId prev

/-! ## Log rendering in the expanded details -/

/-- A log entry as received on the wire: either a plain string or a
structured `{timestamp, message}` object (the component's type guard is
`typeof log !== "string"`). -/
inductive LogEntry where
  | plain (s : String)
  | entry (timestamp message : String)
  deriving DecidableEq, Repr

/-- The component's type guard and subsequent field access: a structured
entry yields its `(timestamp, message)` pair, a plain string is dropped. -/
def LogEntry.structured? : LogEntry → Option (String × String)
  | .plain _ => none
  | .entry t m => some (t, m)

/-- Embedding of `op.logs.slice(-10)` (FailedOperationsSection.tsx, line
123): JavaScript `Array.slice(-10)` keeps the last `min(10, length)`
elements, i.e. drops `length - 10` elements from the front (truncated
subtraction). -/
def sliceLastTen (logs : List LogEntry) : List LogEntry :=
  logs.drop (logs.length - 10)

/-- Embedding of the rendered log list (FailedOperationsSection.tsx, lines
122–131): `slice(-10)` then `.filter(typeof log !== "string")`, each
survivor rendered from its `timestamp` and `message`. -/
def renderedLogEntries (logs : List LogEntry) : List (String × String) :=
  (sliceLastTen logs).filterMap LogEntry.structured?

/-- Embedding of the guarded logs section (FailedOperationsSection.tsx,
line 118): rendered only under `op.logs && op.logs.length > 0`. -/
def logsSection (logs : List LogEntry) : Option (List (String × String)) :=
  if logs.length > 0 then some (renderedLogEntries logs) else none

/-- The claim's wording, as its own definition: the entries among the last
10 elements of `op.logs` ("last 10" spelled as reverse–take–reverse) that
are not plain strings, kept in their original order. -/
def lastTenNonPlain (logs : List LogEntry) : List (String × String) :=
  ((logs.reverse.take 10).reverse).filterMap LogEntry.structured?

/-! ## Backend Operation Registry and Retry Coordinator

The backend store is not part of the sources (only its client-side callers
and the design document are), so the Registry, the Retry Coordinator and
the Cleanup Scheduler's retention policy are modelled from the
specification text. -/

/-- A record held by the Registry.  `terminalAt` is the time of the
terminal transition, when one has occurred. -/
structure RegistryRecord where
  id : Nat
  opType : String
  status : String
  original_request : Option OriginalRequest
  terminalAt : Option Nat
  deriving DecidableEq, Repr

/-- Modelled from the spec: the Operation Registry (§4.1), absent from the
sources — a keyed store of operation records that assigns fresh ids from a
counter. -/
structure Registry where
  nextId : Nat
  records : List (Nat × RegistryRecord)
  deriving DecidableEq, Repr

/-- Well-formedness: every stored id was assigned below the counter. -/
def Registry.wf (r : Registry) : Prop :=
  ∀ p ∈ r.records, p.1 < r.nextId

/-- Modelled from the spec: `get(id) -> Operation | NotFound` (§4.1). -/
def Registry.get (r : Registry) (id : Nat) : Option RegistryRecord :=
  (r.records.find? (fun p => p.1 = id)).map Prod.snd

/-- Modelled from the spec: `create(type, original_request) -> id` (§4.1)
— a brand-new operation under a fresh id, status `queued`, with the
request captured once as `original_request`. -/
def Registry.create (r : Registry) (ty : String) (req : OriginalRequest) :
    Registry × Nat :=
  ({ nextId := r.nextId + 1
     records := (r.nextId,
       { id := r.nextId, opType := ty, status := "queued",
         original_request := some req, terminalAt := none }) :: r.records },
   r.nextId)

/-- Failure modes of the Retry Coordinator (§4.5, §7). -/
inductive RetryError where
  | unknownOperation
  | notRetryable
  | missingOriginalRequest
  deriving DecidableEq, Repr

/-- Modelled from the spec: the Retry Coordinator `retry(id) -> new_id`
(§4.5), absent from the sources — requires a failure-class record with a
present `original_request`, then calls job submission (here `create`) with
the stored request; it never writes to the original record. -/
def Registry.retry (r : Registry) (id : Nat) : Except RetryError (Registry × Nat) :=
  match r.get id with
  | none => .error .unknownOperation
  | some rec =>
    if isFailureStatus rec.status then
      match rec.original_request with
      | none => .error .missingOriginalRequest
      | some req => .ok (r.create rec.opType req)
    else .error .notRetryable

/-- The (only) result `remove` can produce per the spec. -/
inductive RemoveResult where
  | ok
  deriving DecidableEq, Repr

/-- Modelled from the spec: `remove(id) -> ok` (§4.1, §6), absent from the
sources — idempotent, always answers ok, erases the record when present
and is a no-op otherwise. -/
def Registry.remove (r : Registry) (id : Nat) : RemoveResult × Registry :=
  (.ok, { r with records := r.records.filter (fun p => p.1 ≠ id) })

/-! ## Retention windows (Cleanup Scheduler) -/

/-- Modelled from the spec: failure-class retention default (§4.3),
300 time-units. -/
def failureClassRetention : Nat := 300

/-- Modelled from the spec: benign-terminal retention default (§4.3),
30 time-units. -/
def benignTerminalRetention : Nat := 30

/-- Retention window selected by status class (§4.2–§4.3). -/
def retentionFor (status : String) : Nat :=
  if isFailureStatus status then failureClassRetention else benignTerminalRetention

/-- The scheduler's eviction deadline for a record: terminal-transition
time plus the class-specific retention window (§4.3). -/
def recordEvictionAt (rec : RegistryRecord) : Option Nat :=
  rec.terminalAt.map (fun ta => ta + retentionFor rec.status)

/-- Modelled from the spec: whether a record is still queryable at time
`t` — it has not been explicitly removed and, once terminal, its
class-specific retention window has not elapsed (§4.3, §8). -/
def queryableAt (rec : RegistryRecord) (explicitlyRemoved : Bool) (t : Nat) : Bool :=
  !explicitlyRemoved &&
    match rec.terminalAt with
    | none => true
    | some ta => decide (t < ta + retentionFor rec.status)

/-! ## Effects of the retry mutation (client side) -/

/-- Calls the client can issue to the server. -/
inductive ServerCall where
  | submitCrawl (req : CrawlRequest)
  | removeOperation (id : String)
  deriving DecidableEq, Repr

/-- Local query-cache effects (`queryClient` operations). -/
inductive CacheEffect where
  | removeQuery (key : List String)
  | invalidateQueries (key : List String)
  deriving DecidableEq, Repr

/-- Query key of one operation's detail entry (`progressKeys.detail`). -/
def progressKeysDetail (id : String) : List String :=
  ["progress", "detail", id]

/-- Query key of the failed-operations list (`progressKeys.failed`). -/
def progressKeysFailed : List String :=
  ["progress", "failed"]

/-- Query key of the active-operations list (`progressKeys.active`). -/
def progressKeysActive : List String :=
  ["progress", "active"]

/-- Server calls issued by the retry mutation: exactly the
`knowledgeService.crawlUrl` submissions of `mutationFn`
(useRetryKnowledgeSource.ts, lines 17–28); nothing else. -/
def retryServerCalls (failedOp : FailedOperation) : List ServerCall :=
  (crawlCalls failedOp).map ServerCall.submitCrawl

/-- Embedding of the hook's `onSuccess` (useRetryKnowledgeSource.ts, lines
30–45): remove the old record's detail entry from the local query cache,
then invalidate the failed and active lists.  All three are local cache
effects; no server call is made. -/
def onSuccessCacheEffects (failedOp : FailedOperation) : List CacheEffect :=
  [CacheEffect.removeQuery (progressKeysDetail failedOp.progressId),
   CacheEffect.invalidateQueries progressKeysFailed,
   CacheEffect.invalidateQueries progressKeysActive]

/-! ## Client Poller view eviction -/

/-- Events that can change the observer's failed-operations view. -/
inductive PollerEvent where
  | cacheTimerTick (purgeIds : List String)
  | userRemoveConfirmed (id : String)
  | userRetrySucceeded (id : String)
  deriving DecidableEq, Repr

/-- An entry of the observer's own view, tagged with its status class. -/
structure ViewEntry where
  id : String
  failureClass : Bool
  deriving DecidableEq, Repr

/-- Modelled from the spec: the Client Poller's view-eviction policy
(§4.6, §9) — the timer-driven read-cache policy lives in
`useProgressQueries.ts`, which is not among the sources.  The explicit
paths are from the sources: removal only after the user confirms in
`DeleteConfirmModal` (FailedOperationsSection.tsx, lines 141–152), and
removal of the old entry when a retry succeeds
(useRetryKnowledgeSource.ts, lines 36–40).  A cache timer tick may purge
benign-terminal entries only. -/
def clientViewStep (e : PollerEvent) (view : List ViewEntry) : List ViewEntry :=
  match e with
  | .cacheTimerTick purgeIds =>
      view.filter (fun v => v.failureClass || !(purgeIds.contains v.id))
  | .userRemoveConfirmed id => view.filter (fun v => v.id ≠ id)
  | .userRetrySucceeded id => view.filter (fun v => v.id ≠ id)

end Archon

namespace Archon

/-- C8 helper: membership in a filtered list, specialised to the failure
filter. -/
theorem mem_listFailedOperations_iff (response : OperationsResponse) (op : Operation) :
    op ∈ (listFailedOperations response).operations ↔
      op ∈ response.operations ∧ (op.status = "error" ∨ op.status = "failed") := by
  simp [listFailedOperations, List.mem_filter, isFailureStatus,
    Bool.or_eq_true, decide_eq_true_eq]

/-- **C1.**  For every response of the underlying list endpoint,
`listFailedOperations` returns exactly the operations whose status is
`"error"` or `"failed"`: an operation belongs to its result iff it belongs
to the raw response and has one of those two statuses; consequently no
operation with status `"completed"`, `"cancelled"`, or any non-terminal
status is ever included. -/
theorem listFailedOperations_exactly_failures (response : OperationsResponse) (op : Operation) :
    (op ∈ (listFailedOperations response).operations ↔
      op ∈ response.operations ∧ (op.status = "error" ∨ op.status = "failed")) ∧
    (op.status = "completed" ∨ op.status = "cancelled" ∨
        (op.status ≠ "error" ∧ op.status ≠ "failed") →
      op ∉ (listFailedOperations response).operations) := by
  constructor
  · exact mem_listFailedOperations_iff response op
  · intro h hmem
    rcases (mem_listFailedOperations_iff response op).mp hmem with ⟨-, hst⟩
    rcases h with h | h | ⟨h₁, h₂⟩ <;> rcases hst with hst | hst <;> simp_all

/-- C1 witness: a concrete two-operation response, instantiating the
membership characterisation. -/
theorem listFailedOperations_exactly_failures_witness :
    (({ progressId := "a", status := "error" } : Operation) ∈
        (listFailedOperations
          { operations := [{ progressId := "a", status := "error" },
                           { progressId := "b", status := "completed" }],
            timestamp := "t0" }).operations ↔
      ({ progressId := "a", status := "error" } : Operation) ∈
          [({ progressId := "a", status := "error" } : Operation),
           { progressId := "b", status := "completed" }] ∧
        (("error" : String) = "error" ∨ ("error" : String) = "failed")) ∧
    ((("error" : String) = "completed" ∨ ("error" : String) = "cancelled" ∨
        (("error" : String) ≠ "error" ∧ ("error" : String) ≠ "failed")) →
      ({ progressId := "a", status := "error" } : Operation) ∉
        (listFailedOperations
          { operations := [{ progressId := "a", status := "error" },
                           { progressId := "b", status := "completed" }],
            timestamp := "t0" }).operations) :=
  listFailedOperations_exactly_failures
    { operations := [{ progressId := "a", status := "error" },
                     { progressId := "b", status := "completed" }],
      timestamp := "t0" }
    { progressId := "a", status := "error" }

/-- **C8.**  For every response the underlying endpoint returns, the
`FailedOperationsResponse` produced by `listFailedOperations` satisfies
`count = operations.length`, `count` counts exactly the error/failed
operations of the raw response (after filtering, not the raw list), and its
`timestamp` equals the raw response's `timestamp`. -/
theorem listFailedOperations_count_and_timestamp (response : OperationsResponse) :
    (listFailedOperations response).count =
        (listFailedOperations response).operations.length ∧
    (listFailedOperations response).count =
        (response.operations.filter (fun op => isFailureStatus op.status)).length ∧
    (listFailedOperations response).timestamp = response.timestamp := by
  refine ⟨rfl, rfl, rfl⟩

/-- **C2 counterexample.**  The claim says retry fails with `NotRetryable`
when the record's status is not failure-class, with the collaborator never
called.  A record with status `"completed"` and a present
`original_request.url` refutes it: its status is not failure-class, yet the
mutation does not throw and the collaborator is called. -/
theorem retry_no_status_check_counterexample :
    isFailureStatus ("completed" : String) = false ∧
    mutationFn { progressId := "p1", status := "completed",
                 original_request := some { url := some "https://x",
                                            max_depth := some 2, tags := some [] } } =
      .calledCrawlUrl { url := "https://x", max_depth := some 2, tags := some [] } ∧
    crawlCalls { progressId := "p1", status := "completed",
                 original_request := some { url := some "https://x",
                                            max_depth := some 2, tags := some [] } } ≠ [] := by
  refine ⟨rfl, rfl, ?_⟩
  simp [crawlCalls, mutationFn]

/-- **C2 (amended).**  The mutation throws the missing-original-request
error exactly when `original_request?.url` is falsy (the record's
`original_request` is absent, its `url` is absent, or its `url` is empty);
in particular an absent `original_request` throws, and whenever the
mutation throws the job-submission collaborator is never called, so no new
operation is created.  The hook performs no status check, so no
`NotRetryable` rejection of non-failure-class records exists on this path. -/
theorem retry_throw_conditions (failedOp : FailedOperation) :
    (failedOp.original_request = none →
      mutationFn failedOp = .thrown "Cannot retry: Original request data missing" ∧
      crawlCalls failedOp = []) ∧
    ((mutationFn failedOp).isThrown = true ↔
      (failedOp.original_request.bind OriginalRequest.url = none ∨
       failedOp.original_request.bind OriginalRequest.url = some "")) ∧
    ((mutationFn failedOp).isThrown = true → crawlCalls failedOp = []) := by
  rcases failedOp with ⟨pid, st, oreq⟩
  rcases oreq with _ | ⟨url, md, tg⟩
  · exact ⟨fun _ => ⟨rfl, rfl⟩, by simp [mutationFn, MutationOutcome.isThrown],
      fun _ => rfl⟩
  · refine ⟨(fun h => nomatch h), ?_, ?_⟩
    · rcases url with _ | u
      · simp [mutationFn, MutationOutcome.isThrown]
      · by_cases hu : u = "" <;>
          simp [mutationFn, MutationOutcome.isThrown, hu]
    · intro h
      rcases url with _ | u
      · rfl
      · by_cases hu : u = ""
        · simp [crawlCalls, mutationFn, hu]
        · simp [mutationFn, MutationOutcome.isThrown, hu] at h

/-- C2 witness: the amended statement instantiated at a record with no
`original_request`: the mutation throws the fixed message and issues no
collaborator call. -/
theorem retry_throw_conditions_witness :
    mutationFn { progressId := "p0", status := "failed", original_request := none } =
      .thrown "Cannot retry: Original request data missing" ∧
    crawlCalls { progressId := "p0", status := "failed", original_request := none } = [] :=
  (retry_throw_conditions
    { progressId := "p0", status := "failed", original_request := none }).1 rfl

/-! ## C10: algebra of `toggleExpanded` -/

/-- Toggling an id flips that id's membership. -/
theorem toggleExpanded_mem_self (p : String) (s : Finset String) :
    p ∈ toggleExpanded p s ↔ p ∉ s := by
  by_cases h : p ∈ s <;> simp [toggleExpanded, h]

/-- Toggling one id leaves every other id's membership unchanged. -/
theorem toggleExpanded_mem_of_ne {r p : String} (s : Finset String) (h : r ≠ p) :
    r ∈ toggleExpanded p s ↔ r ∈ s := by
  by_cases hp : p ∈ s <;> simp [toggleExpanded, hp, Finset.mem_erase, Finset.mem_insert, h]

/-- **C10.**  `toggleExpanded` is an involution on the expanded-set state:
toggling an id twice restores the set, one toggle flips exactly that id's
membership and leaves all other ids unchanged, and toggles of distinct ids
commute. -/
theorem toggleExpanded_involution_flip_commute (s : Finset String) (p q r : String) :
    toggleExpanded p (toggleExpanded p s) = s ∧
    (p ∈ toggleExpanded p s ↔ p ∉ s) ∧
    (r ≠ p → (r ∈ toggleExpanded p s ↔ r ∈ s)) ∧
    (p ≠ q → toggleExpanded p (toggleExpanded q s) = toggleExpanded q (toggleExpanded p s)) := by
  refine ⟨?_, toggleExpanded_mem_self p s, fun h => toggleExpanded_mem_of_ne s h, ?_⟩
  · by_cases h : p ∈ s
    · have h1 : toggleExpanded p s = s.erase p := by simp [toggleExpanded, h]
      have h2 : p ∉ s.erase p := Finset.not_mem_erase p s
      rw [h1, toggleExpanded, if_neg h2, Finset.insert_erase h]
    · have h1 : toggleExpanded p s = insert p s := by simp [toggleExpanded, h]
      have h2 : p ∈ insert p s := Finset.mem_insert_self p s
      rw [h1, toggleExpanded, if_pos h2, Finset.erase_insert h]
  · intro hpq
    ext x
    by_cases hxp : x = p
    · subst hxp
      rw [toggleExpanded_mem_self x (toggleExpanded q s),
        toggleExpanded_mem_of_ne s hpq,
        toggleExpanded_mem_of_ne (toggleExpanded x s) hpq,
        toggleExpanded_mem_self x s]
    · by_cases hxq : x = q
      · subst hxq
        rw [toggleExpanded_mem_of_ne (toggleExpanded x s) (Ne.symm hpq),
          toggleExpanded_mem_self x s,
          toggleExpanded_mem_self x (toggleExpanded p s),
          toggleExpanded_mem_of_ne s (Ne.symm hpq)]
      · rw [toggleExpanded_mem_of_ne (toggleExpanded q s) hxp,
          toggleExpanded_mem_of_ne s hxq,
          toggleExpanded_mem_of_ne (toggleExpanded p s) hxq,
          toggleExpanded_mem_of_ne s hxp]

/-! ## C9: log rendering -/

/-- **C9.**  In the expanded details of a failed operation, the rendered
log entries are exactly the structured (non-plain-string) entries among
the last 10 elements of `op.logs`, in their original insertion order (the
rendered list is a sublist of the structured entries of the full log), and
the logs section is rendered exactly when `op.logs` is non-empty. -/
theorem renderedLogs_last_ten_non_plain (logs : List LogEntry) :
    ((logsSection logs).isSome ↔ logs ≠ []) ∧
    renderedLogEntries logs = lastTenNonPlain logs ∧
    (renderedLogEntries logs).Sublist (logs.filterMap LogEntry.structured?) := by
  refine ⟨?_, ?_, ?_⟩
  · cases logs <;> simp [logsSection]
  · have h : sliceLastTen logs = (logs.reverse.take 10).reverse :=
      List.rtake_eq_reverse_take_reverse logs 10
    simp only [renderedLogEntries, lastTenNonPlain, h]
  · exact (List.drop_sublist _ _).filterMap LogEntry.structured?

/-! ## C7: idempotence of remove -/

/-- **C7.**  `remove(id)` is idempotent: it answers ok, a second call on
the same id also answers ok and leaves the state of the first call
unchanged, after it the id is absent, and removing an id that is already
absent answers ok without changing the registry. -/
theorem registry_remove_idempotent (r : Registry) (id : Nat) :
    (Registry.remove r id).1 = RemoveResult.ok ∧
    (Registry.remove (Registry.remove r id).2 id).1 = RemoveResult.ok ∧
    (Registry.remove (Registry.remove r id).2 id).2 = (Registry.remove r id).2 ∧
    Registry.get (Registry.remove r id).2 id = none ∧
    (Registry.get r id = none → (Registry.remove r id).2 = r) := by
  refine ⟨rfl, rfl, ?_, ?_, ?_⟩
  · simp only [Registry.remove]
    congr 1
    simp [List.filter_filter]
  · simp only [Registry.remove, Registry.get, Option.map_eq_none', List.find?_eq_none]
    intro x hx
    have h2 := (List.mem_filter.mp hx).2
    simp_all
  · intro h
    simp only [Registry.get, Option.map_eq_none', List.find?_eq_none] at h
    simp only [Registry.remove]
    have hrec : r.records.filter (fun p => p.1 ≠ id) = r.records := by
      rw [List.filter_eq_self]
      intro a ha
      simpa using h a ha
    rw [hrec]

/-- C7 witness: on the empty registry, removing the absent id 5 answers ok
twice, the id stays absent, and the registry is unchanged. -/
theorem registry_remove_idempotent_witness :
    (Registry.remove ⟨0, []⟩ 5).1 = RemoveResult.ok ∧
    Registry.get (Registry.remove ⟨0, []⟩ 5).2 5 = none ∧
    (Registry.remove ⟨0, []⟩ 5).2 = ⟨0, []⟩ :=
  ⟨(registry_remove_idempotent ⟨0, []⟩ 5).1,
   (registry_remove_idempotent ⟨0, []⟩ 5).2.2.2.1,
   (registry_remove_idempotent ⟨0, []⟩ 5).2.2.2.2 rfl⟩

/-! ## C3: retry round-trip -/

/-- **C3.**  For every well-formed registry holding a failure-class record
created with request `R`, `retry` calls job submission with the stored
`original_request`, producing a brand-new operation under a fresh id
different from the original, whose `original_request` equals `R`; the
original record is not mutated and remains queryable, and well-formedness
is preserved. -/
theorem registry_retry_round_trip (r : Registry) (id : Nat) (rec : RegistryRecord)
    (req : OriginalRequest) (hwf : r.wf) (hget : Registry.get r id = some rec)
    (hst : isFailureStatus rec.status = true)
    (hreq : rec.original_request = some req) :
    Registry.retry r id = .ok ((Registry.create r rec.opType req).1, r.nextId) ∧
    r.nextId ≠ id ∧
    Registry.get (Registry.create r rec.opType req).1 r.nextId =
      some { id := r.nextId, opType := rec.opType, status := "queued",
             original_request := some req, terminalAt := none } ∧
    Registry.get (Registry.create r rec.opType req).1 id = some rec ∧
    Registry.wf (Registry.create r rec.opType req).1 := by
  have hid : id < r.nextId := by
    obtain ⟨x, hfind, hsnd⟩ := Option.map_eq_some'.mp hget
    have hx : x ∈ r.records := List.mem_of_find?_eq_some hfind
    have hx1 : x.1 = id := by simpa using List.find?_some hfind
    exact hx1 ▸ hwf x hx
  have hne : r.nextId ≠ id := Nat.ne_of_gt hid
  refine ⟨?_, hne, ?_, ?_, ?_⟩
  · simp only [Registry.retry, hget, hst, hreq, if_true]
    rfl
  · simp [Registry.get, Registry.create, List.find?_cons]
  · simpa [Registry.get, Registry.create, hne] using hget
  · intro p hp
    simp only [Registry.create, List.mem_cons] at hp
    rcases hp with hp | hp
    · simp [Registry.create, hp]
    · exact Nat.lt_succ_of_lt (hwf p hp)

/-- C3 witness: a one-record registry holding a failed crawl created from
`{url: "https://x", max_depth: 2, tags: []}`; retry yields the fresh id 1
≠ 0, the new record stores the same request, and the original record is
still readable. -/
theorem registry_retry_round_trip_witness :
    Registry.retry
        ⟨1, [(0, { id := 0, opType := "crawl", status := "error",
                   original_request := some { url := some "https://x",
                                              max_depth := some 2, tags := some [] },
                   terminalAt := some 5 })]⟩ 0 =
      .ok ((Registry.create
              ⟨1, [(0, { id := 0, opType := "crawl", status := "error",
                         original_request := some { url := some "https://x",
                                                    max_depth := some 2, tags := some [] },
                         terminalAt := some 5 })]⟩ "crawl"
              { url := some "https://x", max_depth := some 2, tags := some [] }).1, 1) ∧
    (1 : Nat) ≠ 0 ∧
    Registry.get (Registry.create
        ⟨1, [(0, { id := 0, opType := "crawl", status := "error",
                   original_request := some { url := some "https://x",
                                              max_depth := some 2, tags := some [] },
                   terminalAt := some 5 })]⟩ "crawl"
        { url := some "https://x", max_depth := some 2, tags := some [] }).1 0 =
      some { id := 0, opType := "crawl", status := "error",
             original_request := some { url := some "https://x",
                                        max_depth := some 2, tags := some [] },
             terminalAt := some 5 } := by
  have h := registry_retry_round_trip
    ⟨1, [(0, { id := 0, opType := "crawl", status := "error",
               original_request := some { url := some "https://x",
                                          max_depth := some 2, tags := some [] },
               terminalAt := some 5 })]⟩ 0
    { id := 0, opType := "crawl", status := "error",
      original_request := some { url := some "https://x",
                                 max_depth := some 2, tags := some [] },
      terminalAt := some 5 }
    { url := some "https://x", max_depth := some 2, tags := some [] }
    (by intro p hp; simp at hp; simp [hp]) rfl rfl rfl
  exact ⟨h.1, h.2.1, h.2.2.2.1⟩

/-! ## C4: failure entries leave the view only by explicit user action -/

/-- **C4.**  A failure-class record is never removed from the observer's
own view without an explicit user action: a cache timer tick (passive
expiry) always keeps it, whatever ids the tick purges, and any event that
does drop it is either the user-confirmed Remove of that id or a
successful user-initiated Retry of that id. -/
theorem failure_entries_removed_only_by_user (e : PollerEvent) (view : List ViewEntry)
    (v : ViewEntry) (hv : v ∈ view) (hf : v.failureClass = true) :
    (∀ purgeIds, v ∈ clientViewStep (.cacheTimerTick purgeIds) view) ∧
    (v ∉ clientViewStep e view →
      e = .userRemoveConfirmed v.id ∨ e = .userRetrySucceeded v.id) := by
  constructor
  · intro ids
    exact List.mem_filter.mpr ⟨hv, by simp [hf]⟩
  · intro hdrop
    cases e with
    | cacheTimerTick ids =>
        exact absurd (List.mem_filter.mpr ⟨hv, by simp [hf]⟩) hdrop
    | userRemoveConfirmed i =>
        left
        have hvi : v.id = i := by
          by_contra hne
          exact hdrop (List.mem_filter.mpr ⟨hv, by simp [hne]⟩)
        rw [hvi]
    | userRetrySucceeded i =>
        right
        have hvi : v.id = i := by
          by_contra hne
          exact hdrop (List.mem_filter.mpr ⟨hv, by simp [hne]⟩)
        rw [hvi]

/-- C4 witness: a one-entry view holding the failure-class entry `"a"`.  A
timer tick that even names `"a"` keeps the entry; dropping it under the
user-confirmed Remove event identifies that event as the cause. -/
theorem failure_entries_removed_only_by_user_witness :
    (⟨"a", true⟩ : ViewEntry) ∈
      clientViewStep (.cacheTimerTick ["a"]) [(⟨"a", true⟩ : ViewEntry)] ∧
    (PollerEvent.userRemoveConfirmed "a" =
        PollerEvent.userRemoveConfirmed "a" ∨
      PollerEvent.userRemoveConfirmed "a" = PollerEvent.userRetrySucceeded "a") :=
  ⟨(failure_entries_removed_only_by_user (.userRemoveConfirmed "a")
      [⟨"a", true⟩] ⟨"a", true⟩ (by simp) rfl).1 ["a"],
   (failure_entries_removed_only_by_user (.userRemoveConfirmed "a")
      [⟨"a", true⟩] ⟨"a", true⟩ (by simp) rfl).2
     (by simp [clientViewStep])⟩

/-! ## C5: frame property of retry -/

/-- Helper: creating a fresh operation leaves every existing record
readable unchanged. -/
theorem registry_get_create_of_wf (r : Registry) (ty : String) (req : OriginalRequest)
    (id : Nat) (rec : RegistryRecord) (hwf : Registry.wf r)
    (hget : Registry.get r id = some rec) :
    Registry.get (Registry.create r ty req).1 id = some rec := by
  have hid : id < r.nextId := by
    obtain ⟨x, hfind, hsnd⟩ := Option.map_eq_some'.mp hget
    have hx : x ∈ r.records := List.mem_of_find?_eq_some hfind
    have hx1 : x.1 = id := by simpa using List.find?_some hfind
    exact hx1 ▸ hwf x hx
  have hne : r.nextId ≠ id := Nat.ne_of_gt hid
  simpa [Registry.get, Registry.create, hne] using hget

/-- **C5.**  A successful retry clears the old failed record only from the
observer's local view: the retry flow issues no server-side removal (its
server calls are crawl submissions only), its cache effects remove exactly
the old record's local detail entry, and submitting the new operation to
the registry leaves the old record — and hence its retention-window
eviction deadline — unchanged. -/
theorem retry_frame_property (failedOp : FailedOperation) (r : Registry) (ty : String)
    (req : OriginalRequest) (id : Nat) (rec : RegistryRecord) :
    (∀ c ∈ retryServerCalls failedOp, ∀ i, c ≠ ServerCall.removeOperation i) ∧
    CacheEffect.removeQuery (progressKeysDetail failedOp.progressId) ∈
      onSuccessCacheEffects failedOp ∧
    (∀ k, CacheEffect.removeQuery k ∈ onSuccessCacheEffects failedOp →
      k = progressKeysDetail failedOp.progressId) ∧
    (Registry.wf r → Registry.get r id = some rec →
      Registry.get (Registry.create r ty req).1 id = some rec ∧
      (Registry.get (Registry.create r ty req).1 id).map recordEvictionAt =
        (Registry.get r id).map recordEvictionAt) := by
  refine ⟨?_, ?_, ?_, ?_⟩
  · intro c hc i
    simp only [retryServerCalls, List.mem_map] at hc
    obtain ⟨q, -, rfl⟩ := hc
    simp
  · simp [onSuccessCacheEffects]
  · intro k hk
    simpa [onSuccessCacheEffects] using hk
  · intro hwf hget
    have h1 := registry_get_create_of_wf r ty req id rec hwf hget
    exact ⟨h1, by rw [h1, hget]⟩

/-- C5 witness: the retry flow for a concrete failed crawl issues its
cache removal of that record's detail entry, and creating the resubmitted
operation leaves the old error record readable unchanged. -/
theorem retry_frame_property_witness :
    CacheEffect.removeQuery (progressKeysDetail "p1") ∈
      onSuccessCacheEffects { progressId := "p1", status := "error",
                              original_request := some { url := some "https://x",
                                                         max_depth := some 2,
                                                         tags := some [] } } ∧
    Registry.get (Registry.create
        ⟨3, [(2, { id := 2, opType := "crawl", status := "failed",
                   original_request := some { url := some "https://y",
                                              max_depth := none, tags := none },
                   terminalAt := some 11 })]⟩ "crawl"
        { url := some "https://y", max_depth := none, tags := none }).1 2 =
      some { id := 2, opType := "crawl", status := "failed",
             original_request := some { url := some "https://y",
                                        max_depth := none, tags := none },
             terminalAt := some 11 } :=
  ⟨(retry_frame_property { progressId := "p1", status := "error",
                           original_request := some { url := some "https://x",
                                                      max_depth := some 2,
                                                      tags := some [] } }
      ⟨3, [(2, { id := 2, opType := "crawl", status := "failed",
                 original_request := some { url := some "https://y",
                                            max_depth := none, tags := none },
                 terminalAt := some 11 })]⟩ "crawl"
      { url := some "https://y", max_depth := none, tags := none } 2
      { id := 2, opType := "crawl", status := "failed",
        original_request := some { url := some "https://y",
                                   max_depth := none, tags := none },
        terminalAt := some 11 }).2.1,
   ((retry_frame_property { progressId := "p1", status := "error",
                            original_request := some { url := some "https://x",
                                                       max_depth := some 2,
                                                       tags := some [] } }
      ⟨3, [(2, { id := 2, opType := "crawl", status := "failed",
                 original_request := some { url := some "https://y",
                                            max_depth := none, tags := none },
                 terminalAt := some 11 })]⟩ "crawl"
      { url := some "https://y", max_depth := none, tags := none } 2
      { id := 2, opType := "crawl", status := "failed",
        original_request := some { url := some "https://y",
                                   max_depth := none, tags := none },
        terminalAt := some 11 }).2.2.2
     (by intro p hp; simp at hp; simp [hp]) rfl).1⟩

/-! ## C6: retention windows -/

/-- **C6.**  Retention windows: the failure-class default (300 time-units)
is at least the benign-terminal default (30 time-units); `error` and
`failed` records get the 300-unit window, `completed` and `cancelled` the
30-unit window; a record's eviction deadline is its terminal-transition
time plus exactly its class-specific window; and a failure-class record
not explicitly removed stays queryable at every time before its terminal
transition plus 300 time-units. -/
theorem retention_windows_respected (rec : RegistryRecord) (ta t : Nat) :
    benignTerminalRetention ≤ failureClassRetention ∧
    failureClassRetention = 300 ∧
    benignTerminalRetention = 30 ∧
    retentionFor "error" = 300 ∧
    retentionFor "failed" = 300 ∧
    retentionFor "completed" = 30 ∧
    retentionFor "cancelled" = 30 ∧
    (rec.terminalAt = some ta →
      recordEvictionAt rec = some (ta + retentionFor rec.status)) ∧
    (rec.terminalAt = some ta → isFailureStatus rec.status = true →
      t < ta + 300 → queryableAt rec false t = true) := by
  refine ⟨by decide, rfl, rfl, rfl, rfl, rfl, rfl, ?_, ?_⟩
  · intro h
    simp [recordEvictionAt, h]
  · intro hta hf ht
    simp [queryableAt, hta, retentionFor, hf, failureClassRetention, ht]

/-- C6 witness: an `error` record terminal at time 7 has eviction deadline
7 + 300 and is still queryable at time 100. -/
theorem retention_windows_respected_witness :
    recordEvictionAt { id := 0, opType := "crawl", status := "error",
                       original_request := none, terminalAt := some 7 } =
      some (7 + retentionFor "error") ∧
    queryableAt { id := 0, opType := "crawl", status := "error",
                  original_request := none, terminalAt := some 7 } false 100 = true :=
  ⟨(retention_windows_respected { id := 0, opType := "crawl", status := "error",
                                  original_request := none,
                                  terminalAt := some 7 } 7 100).2.2.2.2.2.2.2.1 rfl,
   (retention_windows_respected { id := 0, opType := "crawl", status := "error",
                                  original_request := none,
                                  terminalAt := some 7 } 7 100).2.2.2.2.2.2.2.2
     rfl rfl (by decide)⟩

/-- C10 witness: the toggle algebra instantiated on the empty set with
concrete distinct ids, discharging both disequality hypotheses. -/
theorem toggleExpanded_involution_flip_commute_witness :
    toggleExpanded "a" (toggleExpanded "a" (∅ : Finset String)) = ∅ ∧
    ("a" ∈ toggleExpanded "a" (∅ : Finset String) ↔ "a" ∉ (∅ : Finset String)) ∧
    ("c" ∈ toggleExpanded "a" (∅ : Finset String) ↔ "c" ∈ (∅ : Finset String)) ∧
    toggleExpanded "a" (toggleExpanded "b" (∅ : Finset String)) =
      toggleExpanded "b" (toggleExpanded "a" (∅ : Finset String)) :=
  ⟨(toggleExpanded_involution_flip_commute ∅ "a" "b" "c").1,
   (toggleExpanded_involution_flip_commute ∅ "a" "b" "c").2.1,
   (toggleExpanded_involution_flip_commute ∅ "a" "b" "c").2.2.1 (by decide),
   (toggleExpanded_involution_flip_commute ∅ "a" "b" "c").2.2.2 (by decide)⟩

end Archon
